import Mathlib

/-!
Verification of the ThyroPulse risk scorer.

This file shallowly embeds `src/src/utils/thyroidModel.ts` (the pure risk
scoring function `predictThyroidRisk` together with its helpers
`isAbnormal`, `getLabResultDetails`, `calculateRiskFactors`, and the static
table `REFERENCE_RANGES`) and the display-layer tier recomputations found in
the pages rendering a stored patient record.

Modelling conventions:
- JavaScript numbers are modelled as exact rationals.  Every numeric value
  that arises in the scorer comes from parsing a short decimal string, so
  terminating decimals suffice; double-precision rounding is out of scope.
- `parseFloat` and `parseInt` are modelled with their JavaScript
  longest-numeric-prefix semantics: leading whitespace is skipped, an
  optional sign is read, then the longest readable numeric prefix is taken,
  and `NaN` (modelled as `none`) results only when no digit can be read.
  The model covers decimal mantissas with an optional fraction and an
  optional exponent for `parseFloat`, and decimal or `0x` hexadecimal
  digits for `parseInt`; the `Infinity` literal is not modelled (no claim
  touches it).
- String interpolation of a number (template literals in the detail
  messages) is modelled by printing the rational as its shortest
  terminating decimal, which is what JavaScript prints for every value the
  scorer can produce here.
-/

/-- JavaScript whitespace characters relevant to numeric parsing
(space, tab, line feed, carriage return, vertical tab, form feed). -/
def jsWhitespace (c : Char) : Bool :=
  c = ' ' || c = '\t' || c = '\n' || c = '\r' || c = '\x0b' || c = '\x0c'

/-- Value of a list of decimal digit characters, most significant first. -/
def digitsToNat (ds : List Char) : Nat :=
  ds.foldl (fun a c => a * 10 + (c.toNat - 48)) 0

/-- Signed decimal exponent after the `e`/`E` marker: an optional sign
followed by digits; if no digit follows, the exponent part contributes 0
(JavaScript stops consuming at the last valid position). -/
def parseSignedDigits (l : List Char) : Int :=
  let (neg, r) :=
    match l with
    | '-' :: r => (true, r)
    | '+' :: r => (false, r)
    | _ => (false, l)
  let ds := r.takeWhile Char.isDigit
  if ds.isEmpty then 0
  else if neg then -(digitsToNat ds : Int) else (digitsToNat ds : Int)

/-- Exponent part of a JavaScript float literal, if present. -/
def parseExpPart (l : List Char) : Int :=
  match l with
  | 'e' :: r => parseSignedDigits r
  | 'E' :: r => parseSignedDigits r
  | _ => 0

/-- Model of JavaScript `parseFloat`: skip leading whitespace, read an
optional sign, then the longest prefix of the form `digits[.digits][e±digits]`
with at least one mantissa digit; `none` models `NaN`. -/
def parseFloat (s : String) : Option ℚ :=
  let l := s.toList.dropWhile jsWhitespace
  let (neg, l1) :=
    match l with
    | '-' :: r => (true, r)
    | '+' :: r => (false, r)
    | _ => (false, l)
  let (intDs, l2) := l1.span Char.isDigit
  let (fracDs, l3) :=
    match l2 with
    | '.' :: r => r.span Char.isDigit
    | _ => ([], l2)
  if intDs.isEmpty && fracDs.isEmpty then none
  else
    let m : Nat := digitsToNat (intDs ++ fracDs)
    let e : Int := parseExpPart l3
    let q : ℚ :=
      if 0 ≤ e then mkRat (m * 10 ^ e.toNat : Nat) (10 ^ fracDs.length)
      else mkRat m (10 ^ fracDs.length * 10 ^ (-e).toNat)
    some (if neg then -q else q)

/-- Numeric value of a hexadecimal digit character, if it is one. -/
def hexDigitVal (c : Char) : Option Nat :=
  if c.isDigit then some (c.toNat - 48)
  else if 'a' ≤ c && c ≤ 'f' then some (c.toNat - 87)
  else if 'A' ≤ c && c ≤ 'F' then some (c.toNat - 55)
  else none

/-- Value of a list of hexadecimal digit characters, most significant first. -/
def hexDigitsToNat (ds : List Char) : Nat :=
  ds.foldl (fun a c => a * 16 + ((hexDigitVal c).getD 0)) 0

/-- Model of JavaScript `parseInt` with no radix argument: skip leading
whitespace, read an optional sign, auto-detect a `0x`/`0X` prefix as base 16,
then take the longest prefix of digits of the detected base; `none` models
`NaN` (no digit readable). -/
def parseIntJS (s : String) : Option Int :=
  let l := s.toList.dropWhile jsWhitespace
  let (neg, l1) :=
    match l with
    | '-' :: r => (true, r)
    | '+' :: r => (false, r)
    | _ => (false, l)
  match l1 with
  | '0' :: x :: r =>
    if x = 'x' || x = 'X' then
      let ds := r.takeWhile (fun c => (hexDigitVal c).isSome)
      if ds.isEmpty then none
      else some (if neg then -(hexDigitsToNat ds : Int) else (hexDigitsToNat ds : Int))
    else
      let ds := ('0' :: x :: r).takeWhile Char.isDigit
      some (if neg then -(digitsToNat ds : Int) else (digitsToNat ds : Int))
  | _ =>
    let ds := l1.takeWhile Char.isDigit
    if ds.isEmpty then none
    else some (if neg then -(digitsToNat ds : Int) else (digitsToNat ds : Int))

/-- Smallest decimal scale `k` (searched up to 100) with `d ∣ 10 ^ k`; every
value produced by `parseFloat` has such a scale.  Used to print a rational
the way JavaScript prints the corresponding number. -/
def ratScale (d : Nat) : Nat :=
  ((List.range 100).find? (fun k => 10 ^ k % d == 0)).getD 0

/-- Print a rational as JavaScript prints the corresponding number: sign,
integer digits, and the fractional digits without trailing zeros (shortest
terminating decimal). -/
def ratToString (q : ℚ) : String :=
  let sign := if q < 0 then "-" else ""
  let n := q.num.natAbs
  let d := q.den
  let k := ratScale d
  let digits := n * 10 ^ k / d
  let s := Nat.repr digits
  let s := if s.length ≤ k then String.mk (List.replicate (k + 1 - s.length) '0') ++ s else s
  if k = 0 then sign ++ s
  else sign ++ s.take (s.length - k) ++ "." ++ s.drop (s.length - k)

/-- Model of JavaScript `toUpperCase` for the ASCII key names it is applied
to here. -/
def asciiUpper (s : String) : String :=
  String.mk (s.toList.map (fun c => if 'a' ≤ c && c ≤ 'z' then Char.ofNat (c.toNat - 32) else c))

/-- Model of JavaScript `String.prototype.trim`: strip leading and trailing
whitespace. -/
def jsTrim (s : String) : String :=
  String.mk (((s.toList.dropWhile jsWhitespace).reverse.dropWhile jsWhitespace).reverse)

/-! ## Data model (thyroidModel.ts types) -/

/-- The five lab tests keyed in `REFERENCE_RANGES` and `LabResults`. -/
inductive LabField
  | tsh
  | t3
  | t4
  | thyroglobulin
  | calcitonin
deriving DecidableEq

/-- Lowercase key of a lab field as it appears in the source object. -/
def labFieldName : LabField → String
  | .tsh => "tsh"
  | .t3 => "t3"
  | .t4 => "t4"
  | .thyroglobulin => "thyroglobulin"
  | .calcitonin => "calcitonin"

/-- One entry of the static reference-range table. -/
structure RefRange where
  min : ℚ
  max : ℚ
  unit : String

/-- Reference ranges for lab tests (`REFERENCE_RANGES` in the source; the
`t4` unit string reproduces the source file byte-for-byte, including its
mangled micro sign).  The source bounds 0.4, 4.0, 5.0 and 12.0 are written
as explicit rationals so that they evaluate by kernel reduction. -/
def REFERENCE_RANGES : LabField → RefRange
  | .tsh => ⟨mkRat 4 10, 4, "mIU/L"⟩
  | .t3 => ⟨80, 200, "ng/dL"⟩
  | .t4 => ⟨5, 12, "Î¼g/dL"⟩
  | .thyroglobulin => ⟨3, 40, "ng/mL"⟩
  | .calcitonin => ⟨0, 10, "pg/mL"⟩

/-- `LabResults`: each of the five lab values is an optional string
(`none` models an absent or `undefined` field). -/
structure LabResults where
  tsh : Option String
  t3 : Option String
  t4 : Option String
  thyroglobulin : Option String
  calcitonin : Option String
deriving DecidableEq

/-- Yes/no enum used by the symptom and history fields. -/
inductive YesNo
  | yes
  | no
deriving DecidableEq

/-- Gender enum of `PersonalInfoData` (not used by the scorer). -/
inductive Gender
  | male
  | female
deriving DecidableEq

/-- `SymptomData`. -/
structure SymptomData where
  neckSwelling : YesNo
  difficultySwallowing : YesNo
  voiceChanges : YesNo
  neckPain : YesNo
  swollenLymphNodes : YesNo
deriving DecidableEq

/-- `MedicalHistoryData`; `smoking` is a plain string in the source. -/
structure MedicalHistoryData where
  familyHistoryThyroid : YesNo
  radiationExposure : YesNo
  previousThyroidIssues : YesNo
  smoking : String
deriving DecidableEq

/-- `PersonalInfoData`; `age` is a string parsed with `parseInt`. -/
structure PersonalInfoData where
  age : String
  gender : Gender
deriving DecidableEq

/-- `PredictionInput`. -/
structure PredictionInput where
  labResults : LabResults
  symptoms : SymptomData
  medicalHistory : MedicalHistoryData
  personalInfo : PersonalInfoData
deriving DecidableEq

/-- Risk tier enum (`"low" | "moderate" | "high"` in the source). -/
inductive Risk
  | low
  | moderate
  | high
deriving DecidableEq

/-- The `labResultsAnalysis` component of the result. -/
structure LabAnalysis where
  abnormal : Bool
  details : List String
deriving DecidableEq

/-- `PredictionResult`; the score is a natural number since the source
only ever accumulates the integer weights 10, 15 and 30. -/
structure PredictionResult where
  risk : Risk
  score : Nat
  factors : List String
  labResultsAnalysis : LabAnalysis
deriving DecidableEq

/-! ## Lab analysis (isAbnormal, getLabResultDetails) -/

/-- `isAbnormal`: parse the value; `NaN` is not abnormal; otherwise
abnormal iff the value lies outside the reference range. -/
def isAbnormal (value : String) (type : LabField) : Bool :=
  match parseFloat value with
  | none => false
  | some numValue =>
    let range := REFERENCE_RANGES type
    decide (numValue < range.min) || decide (numValue > range.max)

/-- The detail message pushed for an abnormal lab value, built exactly as
the template literals in `getLabResultDetails` build it (the parsed number
is interpolated, not the raw input string). -/
def labMessage (testKey : LabField) (numValue : ℚ) : String :=
  let range := REFERENCE_RANGES testKey
  let message := asciiUpper (labFieldName testKey) ++ ": " ++ ratToString numValue ++ " "
    ++ range.unit ++ " is "
  if numValue < range.min then
    message ++ "below normal range (" ++ ratToString range.min ++ "-" ++ ratToString range.max
      ++ " " ++ range.unit ++ ")"
  else
    message ++ "above normal range (" ++ ratToString range.min ++ "-" ++ ratToString range.max
      ++ " " ++ range.unit ++ ")"

/-- The five `Object.entries` of a `LabResults` object, in property order. -/
def labEntries (labResults : LabResults) : List (LabField × Option String) :=
  [(.tsh, labResults.tsh), (.t3, labResults.t3), (.t4, labResults.t4),
   (.thyroglobulin, labResults.thyroglobulin), (.calcitonin, labResults.calcitonin)]

/-- Detail produced by one iteration of the `forEach` in
`getLabResultDetails`: skip absent or blank values (the source guard
`!value || value.trim() === ""` — an empty string is caught by the trim
test as well), then push a message iff the value is abnormal.  The inner
`parseFloat` mirrors the re-parse in the source; it cannot be `none` when
`isAbnormal` returned true. -/
def labEntryDetail (testKey : LabField) (value : Option String) : Option String :=
  match value with
  | none => none
  | some v =>
    if jsTrim v = "" then none
    else if isAbnormal v testKey then
      match parseFloat v with
      | some numValue => some (labMessage testKey numValue)
      | none => none
    else none

/-- `getLabResultDetails`: the details accumulated over the five entries in
order (each `forEach` push becomes one `filterMap` hit). -/
def getLabResultDetails (labResults : LabResults) : List String :=
  (labEntries labResults).filterMap (fun e => labEntryDetail e.1 e.2)

/-! ## Risk factors (calculateRiskFactors) -/

/-- The ten base risk-factor conditions, in source order. -/
inductive RiskCond
  | ageOver60
  | familyHistory
  | radiation
  | previousIssues
  | smoker
  | neckSwelling
  | difficultySwallowing
  | voiceChanges
  | neckPain
  | swollenLymphNodes
deriving DecidableEq, Fintype

/-- Truth of one base condition on the input, each case verbatim from the
corresponding `if` in `calculateRiskFactors` (for the age check, a `NaN`
result of `parseInt` makes `age > 60` false in JavaScript). -/
def condHolds (data : PredictionInput) : RiskCond → Bool
  | .ageOver60 =>
    match parseIntJS data.personalInfo.age with
    | some age => decide (age > 60)
    | none => false
  | .familyHistory => data.medicalHistory.familyHistoryThyroid == .yes
  | .radiation => data.medicalHistory.radiationExposure == .yes
  | .previousIssues => data.medicalHistory.previousThyroidIssues == .yes
  | .smoker => data.medicalHistory.smoking == "current"
  | .neckSwelling => data.symptoms.neckSwelling == .yes
  | .difficultySwallowing => data.symptoms.difficultySwallowing == .yes
  | .voiceChanges => data.symptoms.voiceChanges == .yes
  | .neckPain => data.symptoms.neckPain == .yes
  | .swollenLymphNodes => data.symptoms.swollenLymphNodes == .yes

/-- Label pushed for each base condition. -/
def condLabel : RiskCond → String
  | .ageOver60 => "Age over 60"
  | .familyHistory => "Family history of thyroid disease"
  | .radiation => "Prior radiation exposure to neck/head"
  | .previousIssues => "Previous thyroid issues"
  | .smoker => "Current smoker"
  | .neckSwelling => "Neck swelling or lump"
  | .difficultySwallowing => "Difficulty swallowing"
  | .voiceChanges => "Voice changes or hoarseness"
  | .neckPain => "Neck pain"
  | .swollenLymphNodes => "Swollen lymph nodes"

/-- The source order of the ten checks in `calculateRiskFactors`. -/
def riskCondOrder : List RiskCond :=
  [.ageOver60, .familyHistory, .radiation, .previousIssues, .smoker,
   .neckSwelling, .difficultySwallowing, .voiceChanges, .neckPain, .swollenLymphNodes]

/-- `calculateRiskFactors`: ten sequential conditional pushes; each
`if (cond) factors.push(label)` of the source becomes one conditional
singleton segment appended in the same order. -/
def calculateRiskFactors (data : PredictionInput) : List String :=
  (if condHolds data .ageOver60 then ["Age over 60"] else [])
    ++ (if condHolds data .familyHistory then ["Family history of thyroid disease"] else [])
    ++ (if condHolds data .radiation then ["Prior radiation exposure to neck/head"] else [])
    ++ (if condHolds data .previousIssues then ["Previous thyroid issues"] else [])
    ++ (if condHolds data .smoker then ["Current smoker"] else [])
    ++ (if condHolds data .neckSwelling then ["Neck swelling or lump"] else [])
    ++ (if condHolds data .difficultySwallowing then ["Difficulty swallowing"] else [])
    ++ (if condHolds data .voiceChanges then ["Voice changes or hoarseness"] else [])
    ++ (if condHolds data .neckPain then ["Neck pain"] else [])
    ++ (if condHolds data .swollenLymphNodes then ["Swollen lymph nodes"] else [])

/-! ## The scorer (predictThyroidRisk) -/

/-- The `parseFloat(value) > 20` test of the severe-indicator check; a
`NaN` comparison is false in JavaScript. -/
def calcGt20 (value : String) : Bool :=
  match parseFloat value with
  | some numValue => decide (numValue > 20)
  | none => false

/-- `hasCalcitoninElevation`: the source condition
`calcitonin && isAbnormal(calcitonin, "calcitonin") && parseFloat(calcitonin) > 20`;
an absent field or the empty string is falsy. -/
def hasCalcitoninElevation (labResults : LabResults) : Bool :=
  match labResults.calcitonin with
  | none => false
  | some v => (v != "") && isAbnormal v .calcitonin && calcGt20 v

/-- `predictThyroidRisk`.  `Math.round` is the identity here because
`baseScore` only ever accumulates the integer weights 10, 15 and 30, so the
final score is `min baseScore 100` directly. -/
def predictThyroidRisk (data : PredictionInput) : PredictionResult :=
  let labResultDetails := getLabResultDetails data.labResults
  let hasAbnormalLabResults := decide (labResultDetails.length > 0)
  let factors := calculateRiskFactors data
  let baseScore := factors.length * 10
  let baseScore := if hasAbnormalLabResults then baseScore + labResultDetails.length * 15 else baseScore
  let elevated := hasCalcitoninElevation data.labResults
  let baseScore := if elevated then baseScore + 30 else baseScore
  let factors := if elevated then factors ++ ["Significantly elevated calcitonin levels"] else factors
  let score := min baseScore 100
  let risk : Risk := if score < 30 then .low else if score < 70 then .moderate else .high
  { risk := risk, score := score, factors := factors,
    labResultsAnalysis := { abnormal := hasAbnormalLabResults, details := labResultDetails } }

/-! ## Display-layer tier recomputations (patient record pages)

The record pages store the score as a string and recompute a display tier
from `parseFloat` of that string; the recomputation is modelled directly on
the parsed score. -/

/-- `riskLevel` in the patient-detail page:
`score > 60 ? "High" : score > 30 ? "Moderate" : "Low"`. -/
def displayRiskLevel (score : ℚ) : String :=
  if score > 60 then "High" else if score > 30 then "Moderate" else "Low"

/-- `getRiskBadge` in the patient-list page, reduced to the text of the
badge it selects with the same `> 60` / `> 30` thresholds. -/
def getRiskBadgeLabel (score : ℚ) : String :=
  if score > 60 then "High Risk" else if score > 30 then "Moderate Risk" else "Low Risk"

/-! ## Claim-side definitions -/

/-- The tier thresholds as the spec states them: low below 30, moderate
from 30 up to (excluding) 70, high from 70. -/
def tierOfScore (score : Nat) : Risk :=
  if score < 30 then .low else if score < 70 then .moderate else .high

/-- Capitalised name of a scorer tier, for comparison with the
display-layer tier strings. -/
def riskName : Risk → String
  | .low => "Low"
  | .moderate => "Moderate"
  | .high => "High"

/-- One label per true base condition, in the fixed source order. -/
def orderedFactorList (data : PredictionInput) : List String :=
  riskCondOrder.filterMap (fun c => if condHolds data c then some (condLabel c) else none)

/-- Number of the ten base risk-factor conditions that are true. -/
def baseConditionCount (data : PredictionInput) : Nat :=
  (riskCondOrder.filter (fun c => condHolds data c)).length

/-- The severe-calcitonin indicator as the claims state it: 1 iff
calcitonin is present, numerically parseable, outside its reference range,
and its parsed value exceeds 20. -/
def severeCalcitoninBit (labResults : LabResults) : Nat :=
  match labResults.calcitonin with
  | none => 0
  | some v =>
    match parseFloat v with
    | none => 0
    | some q => if isAbnormal v .calcitonin && decide (q > 20) then 1 else 0

/-- Update one lab field of a `LabResults`. -/
def setLab (labResults : LabResults) : LabField → Option String → LabResults
  | .tsh, v => { labResults with tsh := v }
  | .t3, v => { labResults with t3 := v }
  | .t4, v => { labResults with t4 := v }
  | .thyroglobulin, v => { labResults with thyroglobulin := v }
  | .calcitonin, v => { labResults with calcitonin := v }

/-- Update one lab field of the input, leaving everything else fixed. -/
def setInputLab (data : PredictionInput) (f : LabField) (v : Option String) : PredictionInput :=
  { data with labResults := setLab data.labResults f v }

/-! ## Concrete inputs for the spec scenarios -/

/-- All-benign input: age 40, every history and symptom answer no, smoker
never, no lab values. -/
def baselineInput : PredictionInput :=
  { labResults := ⟨none, none, none, none, none⟩,
    symptoms := ⟨.no, .no, .no, .no, .no⟩,
    medicalHistory := ⟨.no, .no, .no, "never"⟩,
    personalInfo := ⟨"40", .male⟩ }

/-- Scenario C input: all ten factor conditions true, no labs. -/
def scenarioCInput : PredictionInput :=
  { labResults := ⟨none, none, none, none, none⟩,
    symptoms := ⟨.yes, .yes, .yes, .yes, .yes⟩,
    medicalHistory := ⟨.yes, .yes, .yes, "current"⟩,
    personalInfo := ⟨"65", .male⟩ }

/-- Scenario D input: no risk factors, calcitonin "25" as the only lab. -/
def scenarioDInput : PredictionInput :=
  { baselineInput with labResults := ⟨none, none, none, none, some "25"⟩ }

/-- Input with the trailing-garbage lab string calcitonin "25abc". -/
def trailingGarbageInput : PredictionInput :=
  { baselineInput with labResults := ⟨none, none, none, none, some "25abc"⟩ }

/-- Witness input for C5: the baseline with family history flipped to yes. -/
def baselinePlusFamilyHistory : PredictionInput :=
  { baselineInput with
    medicalHistory := { baselineInput.medicalHistory with familyHistoryThyroid := .yes } }

/-- Replace the age string of the input, leaving everything else fixed. -/
def setAge (data : PredictionInput) (age : String) : PredictionInput :=
  { data with personalInfo := { data.personalInfo with age := age } }

/-- Input with an unparseable age string for the C10 witness. -/
def nanAgeInput : PredictionInput :=
  { baselineInput with personalInfo := { baselineInput.personalInfo with age := "abc" } }

/-! ## Helper lemmas -/

/-- The empty string parses to `NaN`. -/
theorem parseFloat_empty : parseFloat "" = none := by decide

/-- An unparseable value is never abnormal. -/
theorem isAbnormal_of_parseFloat_none {v : String} (h : parseFloat v = none) (f : LabField) :
    isAbnormal v f = false := by
  simp [isAbnormal, h]

/-- The sequential conditional pushes of `calculateRiskFactors` are the
fold of the conditional singleton segments over the ordered condition list. -/
theorem calculateRiskFactors_eq_foldr (data : PredictionInput) :
    calculateRiskFactors data
      = riskCondOrder.foldr
          (fun c acc => (if condHolds data c then [condLabel c] else []) ++ acc) [] := by
  simp [calculateRiskFactors, riskCondOrder, condLabel]

/-- A `filterMap` of conditional labels is the fold of conditional
singleton segments. -/
theorem filterMap_eq_foldr_segments (p : RiskCond → Bool) (l : List RiskCond) :
    l.filterMap (fun c => if p c then some (condLabel c) else none)
      = l.foldr (fun c acc => (if p c then [condLabel c] else []) ++ acc) [] := by
  induction l with
  | nil => rfl
  | cons a l ih =>
    by_cases h : p a = true <;> simp [h, ih]

/-- Length of the fold of conditional singleton segments is the length of
the filtered list. -/
theorem foldr_segments_length (p : RiskCond → Bool) (l : List RiskCond) :
    (l.foldr (fun c acc => (if p c then [condLabel c] else []) ++ acc) []).length
      = (l.filter p).length := by
  induction l with
  | nil => rfl
  | cons a l ih =>
    by_cases h : p a = true <;> simp [h, List.filter_cons, ih]

/-- The factors list built by `calculateRiskFactors` is one label per true
base condition, in the fixed source order. -/
theorem calculateRiskFactors_eq_orderedFactorList (data : PredictionInput) :
    calculateRiskFactors data = orderedFactorList data := by
  rw [calculateRiskFactors_eq_foldr, orderedFactorList,
    filterMap_eq_foldr_segments (fun c => condHolds data c)]

/-- The number of labels in the factors list equals the number of true
base conditions. -/
theorem calculateRiskFactors_length (data : PredictionInput) :
    (calculateRiskFactors data).length = baseConditionCount data := by
  rw [calculateRiskFactors_eq_foldr, baseConditionCount,
    ← foldr_segments_length (fun c => condHolds data c)]

/-- The boolean severe-indicator check of the source agrees with the
0/1 indicator stated by the claims. -/
theorem hasCalcitoninElevation_eq_bit (labResults : LabResults) :
    (if hasCalcitoninElevation labResults then 1 else 0) = severeCalcitoninBit labResults := by
  unfold hasCalcitoninElevation severeCalcitoninBit
  cases hc : labResults.calcitonin with
  | none => rfl
  | some v =>
    cases hpf : parseFloat v with
    | none =>
      simp [calcGt20, isAbnormal_of_parseFloat_none hpf, hpf]
    | some q =>
      have hv : v ≠ "" := by
        intro he
        rw [he, parseFloat_empty] at hpf
        exact Option.noConfusion hpf
      simp [calcGt20, hpf, hv]

/-- Unfolded form of the score of `predictThyroidRisk`. -/
theorem predictThyroidRisk_score_unfold (data : PredictionInput) :
    (predictThyroidRisk data).score
      = min
          ((if hasCalcitoninElevation data.labResults then
              (if decide ((getLabResultDetails data.labResults).length > 0) then
                (calculateRiskFactors data).length * 10
                  + (getLabResultDetails data.labResults).length * 15
              else (calculateRiskFactors data).length * 10) + 30
            else
              (if decide ((getLabResultDetails data.labResults).length > 0) then
                (calculateRiskFactors data).length * 10
                  + (getLabResultDetails data.labResults).length * 15
              else (calculateRiskFactors data).length * 10)))
          100 := rfl

/-- The score is the clamped weighted sum of factor count, abnormal-detail
count and the severe-calcitonin indicator. -/
theorem predictThyroidRisk_score_formula (data : PredictionInput) :
    (predictThyroidRisk data).score
      = min (10 * baseConditionCount data
          + 15 * (getLabResultDetails data.labResults).length
          + 30 * severeCalcitoninBit data.labResults) 100 := by
  rw [predictThyroidRisk_score_unfold, ← calculateRiskFactors_length,
    ← hasCalcitoninElevation_eq_bit]
  cases helev : hasCalcitoninElevation data.labResults <;>
    rcases hlen : (getLabResultDetails data.labResults).length with _ | n <;>
    simp [hlen] <;> omega

/-- The factors of the result are the base factor labels with the severe
label conditionally appended last. -/
theorem predictThyroidRisk_factors_eq (data : PredictionInput) :
    (predictThyroidRisk data).factors
      = orderedFactorList data
        ++ (if hasCalcitoninElevation data.labResults then
              ["Significantly elevated calcitonin levels"] else []) := by
  have h : (predictThyroidRisk data).factors
      = if hasCalcitoninElevation data.labResults then
          calculateRiskFactors data ++ ["Significantly elevated calcitonin levels"]
        else calculateRiskFactors data := rfl
  rw [h, calculateRiskFactors_eq_orderedFactorList]
  cases hc : hasCalcitoninElevation data.labResults <;> simp

/-! ## Claim theorems -/

/-- C1: for every input, the score returned by `predictThyroidRisk` equals
`min (10 f + 15 d + 30 s) 100`, where `f` is the number of true base
risk-factor conditions, `d` the number of abnormal lab-result detail
entries, and `s` the severe-calcitonin indicator (present, parseable,
outside its range, parsed value above 20).  `Math.round` of the source is
the identity because the sum is an integer. -/
theorem predictThyroidRisk_score_eq_weighted_min (data : PredictionInput) :
    (predictThyroidRisk data).score
      = min (10 * baseConditionCount data
          + 15 * (getLabResultDetails data.labResults).length
          + 30 * severeCalcitoninBit data.labResults) 100 :=
  predictThyroidRisk_score_formula data

/-- C2: the risk tier of the result is a pure function of the returned
score, with tier low below 30, moderate from 30 up to (excluding) 70, and
high from 70. -/
theorem predictThyroidRisk_risk_eq_tierOfScore (data : PredictionInput) :
    (predictThyroidRisk data).risk = tierOfScore (predictThyroidRisk data).score := rfl

/-- C3: the factors sequence contains exactly one label per true base
condition in the fixed source order, with the severe-calcitonin label
appended last when triggered; with all ten conditions true and no labs the
score is 100, the tier high, and the factors are the ten labels in order. -/
theorem predictThyroidRisk_factors_ordered :
    (∀ data : PredictionInput,
      (predictThyroidRisk data).factors
        = orderedFactorList data
          ++ (if hasCalcitoninElevation data.labResults then
                ["Significantly elevated calcitonin levels"] else []))
    ∧ (predictThyroidRisk scenarioCInput).score = 100
    ∧ (predictThyroidRisk scenarioCInput).risk = .high
    ∧ (predictThyroidRisk scenarioCInput).factors
        = ["Age over 60", "Family history of thyroid disease",
           "Prior radiation exposure to neck/head", "Previous thyroid issues",
           "Current smoker", "Neck swelling or lump", "Difficulty swallowing",
           "Voice changes or hoarseness", "Neck pain", "Swollen lymph nodes"] :=
  ⟨predictThyroidRisk_factors_eq, by decide, by decide, by decide⟩

/-- C7: the abnormal flag of the lab analysis is true exactly when the
details sequence is non-empty. -/
theorem predictThyroidRisk_abnormal_iff_details_ne_nil (data : PredictionInput) :
    (predictThyroidRisk data).labResultsAnalysis.abnormal = true
      ↔ (predictThyroidRisk data).labResultsAnalysis.details ≠ [] := by
  have h1 : (predictThyroidRisk data).labResultsAnalysis.abnormal
      = decide ((getLabResultDetails data.labResults).length > 0) := rfl
  have h2 : (predictThyroidRisk data).labResultsAnalysis.details
      = getLabResultDetails data.labResults := rfl
  rw [h1, h2, decide_eq_true_iff]
  exact List.length_pos

/-- An unparseable value never produces a detail entry. -/
theorem labEntryDetail_of_unparseable {v : String} (h : parseFloat v = none) (f : LabField) :
    labEntryDetail f (some v) = none := by
  unfold labEntryDetail
  by_cases ht : jsTrim v = ""
  · simp [ht]
  · simp [ht, isAbnormal_of_parseFloat_none h]

/-- Unfold one step of `filterMap` into an optional singleton segment. -/
theorem filterMap_cons_toList {a b : Type} (f : a -> Option b) (x : a) (l : List a) :
    List.filterMap f (x :: l) = (f x).toList ++ List.filterMap f l := by
  cases h : f x <;> simp [List.filterMap_cons, h]

/-- An absent lab field produces no detail entry. -/
theorem labEntryDetail_none (f : LabField) : labEntryDetail f none = none := rfl

/-- The base conditions do not read the lab results. -/
theorem condHolds_setInputLab (data : PredictionInput) (f : LabField) (w : Option String)
    (c : RiskCond) : condHolds (setInputLab data f w) c = condHolds data c := by
  cases c <;> rfl

/-- C4: the scorer never fails; an unparseable lab value string is treated
as not abnormal and contributes nothing — the result is identical to the
result with that lab field absent.  (Totality itself is structural: the
embedding is a total function.) -/
theorem predictThyroidRisk_unparseable_fail_open
    (data : PredictionInput) (f : LabField) (v : String) (h : parseFloat v = none) :
    predictThyroidRisk (setInputLab data f (some v))
      = predictThyroidRisk (setInputLab data f none) := by
  have hfac : calculateRiskFactors (setInputLab data f (some v))
      = calculateRiskFactors (setInputLab data f none) := by
    simp only [calculateRiskFactors, condHolds_setInputLab]
  have hdet : getLabResultDetails (setInputLab data f (some v)).labResults
      = getLabResultDetails (setInputLab data f none).labResults := by
    cases f <;>
      simp [setInputLab, setLab, getLabResultDetails, labEntries, filterMap_cons_toList,
        labEntryDetail_of_unparseable h, labEntryDetail_none]
  have helev : hasCalcitoninElevation (setInputLab data f (some v)).labResults
      = hasCalcitoninElevation (setInputLab data f none).labResults := by
    cases f <;>
      simp [setInputLab, setLab, hasCalcitoninElevation,
        isAbnormal_of_parseFloat_none h]
  simp only [predictThyroidRisk, hfac, hdet, helev]

/-- Witness for C4: `tsh = "abc"` is unparseable and is silently skipped. -/
theorem predictThyroidRisk_unparseable_fail_open_witness :
    parseFloat "abc" = none
      ∧ predictThyroidRisk (setInputLab baselineInput .tsh (some "abc"))
          = predictThyroidRisk (setInputLab baselineInput .tsh none) :=
  ⟨by decide, predictThyroidRisk_unparseable_fail_open baselineInput .tsh "abc" (by decide)⟩

/-- Flipping one predicate from false to true lengthens a filter by the
number of occurrences of the flipped element. -/
theorem length_filter_flip {α : Type} [DecidableEq α] (p1 p2 : α → Bool) (c : α)
    (h1 : p1 c = false) (h2 : p2 c = true) (ho : ∀ x, x ≠ c → p1 x = p2 x) :
    ∀ l : List α, (l.filter p2).length = (l.filter p1).length + l.count c := by
  intro l
  induction l with
  | nil => rfl
  | cons a l ih =>
    by_cases hac : a = c
    · subst hac
      simp [List.filter_cons, h1, h2, List.count_cons, ih]
      omega
    · have hpa := ho a hac
      cases hp : p1 a
      · simp [List.filter_cons, hp, ← hpa, List.count_cons, hac, ih]
      · simp [List.filter_cons, hp, ← hpa, List.count_cons, hac, ih]
        omega

/-- Each base condition occurs exactly once in the ordered condition list. -/
theorem count_riskCondOrder (c : RiskCond) : riskCondOrder.count c = 1 := by
  cases c <;> decide

/-- C5: flipping exactly one base risk-factor condition from false to true,
holding the lab results and the other nine conditions fixed, never
decreases the score. -/
theorem predictThyroidRisk_score_monotone (d1 d2 : PredictionInput) (c : RiskCond)
    (hlab : d1.labResults = d2.labResults)
    (h1 : condHolds d1 c = false) (h2 : condHolds d2 c = true)
    (ho : ∀ x : RiskCond, x ≠ c → condHolds d1 x = condHolds d2 x) :
    (predictThyroidRisk d1).score ≤ (predictThyroidRisk d2).score := by
  rw [predictThyroidRisk_score_formula, predictThyroidRisk_score_formula, hlab]
  have hcount : (riskCondOrder.filter (fun x => condHolds d2 x)).length
      = (riskCondOrder.filter (fun x => condHolds d1 x)).length + riskCondOrder.count c :=
    length_filter_flip _ _ c h1 h2 ho riskCondOrder
  have hone := count_riskCondOrder c
  unfold baseConditionCount
  have hmin : ∀ a b : ℕ, a ≤ b → min a 100 ≤ min b 100 := fun a b hab =>
    min_le_min hab le_rfl
  apply hmin
  omega

/-- Witness for C5 at the baseline input and the family-history condition. -/
theorem predictThyroidRisk_score_monotone_witness :
    baselineInput.labResults = baselinePlusFamilyHistory.labResults
      ∧ condHolds baselineInput .familyHistory = false
      ∧ condHolds baselinePlusFamilyHistory .familyHistory = true
      ∧ (∀ x : RiskCond, x ≠ .familyHistory →
          condHolds baselineInput x = condHolds baselinePlusFamilyHistory x)
      ∧ (predictThyroidRisk baselineInput).score
          ≤ (predictThyroidRisk baselinePlusFamilyHistory).score :=
  ⟨by decide, by decide, by decide, by decide,
    predictThyroidRisk_score_monotone baselineInput baselinePlusFamilyHistory .familyHistory
      (by decide) (by decide) (by decide) (by decide)⟩

/-- C6: with no true risk factors and calcitonin "25" as the only lab
value, the details are exactly the one expected message, the score is
0 + 15 + 30 = 45, the tier moderate, and the factors exactly the severe
label. -/
theorem predictThyroidRisk_scenarioD :
    baseConditionCount scenarioDInput = 0
      ∧ (predictThyroidRisk scenarioDInput).labResultsAnalysis.details
          = ["CALCITONIN: 25 pg/mL is above normal range (0-10 pg/mL)"]
      ∧ (predictThyroidRisk scenarioDInput).score = 45
      ∧ (predictThyroidRisk scenarioDInput).risk = .moderate
      ∧ (predictThyroidRisk scenarioDInput).factors
          = ["Significantly elevated calcitonin levels"] :=
  ⟨by decide, by decide, by decide, by decide, by decide⟩

/-- C8: the scorer tier (thresholds 30/70) and the display-layer tier
recomputation (thresholds 30/60) disagree: on every score strictly between
60 and 70, and on score 30, the two assign different tiers; the list page
badge shows the same 30/60 inconsistency at score 65. -/
theorem tier_thresholds_inconsistent :
    (∃ s : Nat, s ≤ 100 ∧ riskName (tierOfScore s) ≠ displayRiskLevel (s : ℚ))
      ∧ (∀ s : Nat, 60 < s → s < 70 → riskName (tierOfScore s) ≠ displayRiskLevel (s : ℚ))
      ∧ riskName (tierOfScore 30) ≠ displayRiskLevel ((30 : Nat) : ℚ)
      ∧ getRiskBadgeLabel ((65 : Nat) : ℚ) = "High Risk"
      ∧ tierOfScore 65 = .moderate := by
  have key : ∀ s : Nat, 60 < s → s < 70 → riskName (tierOfScore s) ≠ displayRiskLevel (s : ℚ) := by
    intro s hlo hhi
    have hq : (60 : ℚ) < (s : ℚ) := by exact_mod_cast hlo
    have h30 : ¬ s < 30 := by omega
    simp [tierOfScore, displayRiskLevel, riskName, hhi, h30, hq]
  refine ⟨⟨65, by omega, key 65 (by omega) (by omega)⟩, key, ?_, ?_, by decide⟩
  · have hdl : displayRiskLevel ((30 : Nat) : ℚ) = "Low" := by
      unfold displayRiskLevel
      rw [if_neg (by norm_num), if_neg (by norm_num)]
    rw [hdl]
    decide
  · have hb : getRiskBadgeLabel ((65 : Nat) : ℚ) = "High Risk" := by
      unfold getRiskBadgeLabel
      rw [if_pos (by norm_num)]
    exact hb

/-- Witness for C8 at score 65, discharging the range hypotheses. -/
theorem tier_thresholds_inconsistent_witness :
    60 < 65 ∧ 65 < 70 ∧ riskName (tierOfScore 65) ≠ displayRiskLevel ((65 : Nat) : ℚ) :=
  ⟨by omega, by omega, tier_thresholds_inconsistent.2.1 65 (by omega) (by omega)⟩

/-- C9: `parseFloat` keeps a parseable numeric prefix, so calcitonin
"25abc" is scored exactly like 25 (one abnormality detail and the severe
bonus), while a string with no numeric prefix parses to `NaN` and is
skipped. -/
theorem parseFloat_prefix_semantics :
    parseFloat "25abc" = some 25
      ∧ parseFloat "abc" = none
      ∧ (predictThyroidRisk trailingGarbageInput).labResultsAnalysis.details
          = ["CALCITONIN: 25 pg/mL is above normal range (0-10 pg/mL)"]
      ∧ (predictThyroidRisk trailingGarbageInput).score = 45
      ∧ (predictThyroidRisk trailingGarbageInput).factors
          = ["Significantly elevated calcitonin levels"] :=
  ⟨by decide, by decide, by decide, by decide, by decide⟩

/-- C10: with an unparseable age string the age factor is simply not
added: the age condition is false, "Age over 60" never appears in the
factors, and the whole result is the one computed for an age of 50, the
nine other conditions scored as usual. -/
theorem predictThyroidRisk_nan_age_total (data : PredictionInput)
    (h : parseIntJS data.personalInfo.age = none) :
    condHolds data .ageOver60 = false
      ∧ "Age over 60" ∉ (predictThyroidRisk data).factors
      ∧ predictThyroidRisk data = predictThyroidRisk (setAge data "50") := by
  have hage : condHolds data .ageOver60 = false := by
    simp [condHolds, h]
  have h50 : parseIntJS "50" = some 50 := by decide
  have hage50 : condHolds (setAge data "50") .ageOver60 = false := by
    simp [condHolds, setAge, h50]
  have hother : ∀ c : RiskCond, c ≠ .ageOver60 →
      condHolds (setAge data "50") c = condHolds data c := by
    intro c hc
    cases c <;> first | exact absurd rfl hc | rfl
  refine ⟨hage, ?_, ?_⟩
  · rw [predictThyroidRisk_factors_eq]
    intro hmem
    rcases List.mem_append.mp hmem with hm | hm
    · rw [orderedFactorList, List.mem_filterMap] at hm
      obtain ⟨c, _, hfc⟩ := hm
      by_cases hcond : condHolds data c = true
      · rw [if_pos hcond] at hfc
        have hlab := Option.some.inj hfc
        cases c <;> simp_all [condLabel]
      · rw [if_neg hcond] at hfc
        exact Option.noConfusion hfc
    · by_cases helev : hasCalcitoninElevation data.labResults = true
      · rw [if_pos helev] at hm
        simp at hm
      · rw [if_neg helev] at hm
        exact List.not_mem_nil _ hm
  · have hfac : calculateRiskFactors data = calculateRiskFactors (setAge data "50") := by
      simp only [calculateRiskFactors, hage, hage50,
        hother .familyHistory (by simp), hother .radiation (by simp),
        hother .previousIssues (by simp), hother .smoker (by simp),
        hother .neckSwelling (by simp), hother .difficultySwallowing (by simp),
        hother .voiceChanges (by simp), hother .neckPain (by simp),
        hother .swollenLymphNodes (by simp)]
    have hlabs : (setAge data "50").labResults = data.labResults := rfl
    simp only [predictThyroidRisk, hfac, hlabs]

/-- Witness for C10: age "abc" yields `NaN` and the conclusion holds at
the baseline record. -/
theorem predictThyroidRisk_nan_age_total_witness :
    parseIntJS nanAgeInput.personalInfo.age = none
      ∧ (condHolds nanAgeInput .ageOver60 = false
          ∧ "Age over 60" ∉ (predictThyroidRisk nanAgeInput).factors
          ∧ predictThyroidRisk nanAgeInput = predictThyroidRisk (setAge nanAgeInput "50")) :=
  ⟨by decide, predictThyroidRisk_nan_age_total nanAgeInput (by decide)⟩
